import Mathlib

/-!
# Icebox storage orchestration layer: a shallow embedding

This file embeds the storage orchestration layer of the icebox repository
(`app/box.py` and the `put`/`get` commands of `app/cli.py`) and proves
properties of the `Box` operations `store`, `retrieve`, `delete`,
`contains` and `sources`.

External collaborators (the backend, the GnuPG crypto boundary, the
filesystem) are modelled as parameters: the backend is a record of
(deterministic) functions, each fallible call returning `Except`; the
local filesystem visible to the orchestrator is the list of transient
file paths currently present plus one record file per source in the
retrieval-keys and retrieval-jobs stores, modelled as association lists
keyed by source name.  Every operation returns, besides its Python-level
result (`Except PyErr`), the successor state and the trace of backend
calls and record mutations it performed, in order.
-/

namespace Icebox

/-- Combined job status reported by the backend (`app.util.JobStatus`):
the pessimistic conjunction of the data-job and meta-job statuses. -/
inductive JobStatus where
  | running
  | success
  | failure
deriving DecidableEq, Repr

/-- Python-level errors, distinguished only as far as the code does:
`exc msg` is a generic `Exception(msg)`; `nameError v` is the
`UnboundLocalError` raised when the local variable `v` is referenced
before assignment; `typeError f` is the `TypeError` raised when a call
to `f` passes a number of positional arguments that does not match the
parameter list of the function. -/
inductive PyErr where
  | exc (msg : String)
  | nameError (v : String)
  | typeError (f : String)
deriving DecidableEq, Repr

/-- One observable step of a `Box` operation: a backend call or a
mutation of the retrieval-keys / retrieval-jobs stores or of the local
filesystem. -/
inductive Event where
  | backendStore (path name : String)
  | retrieveInitCall (key : Option String) (options : String)
  | statusPoll (dataJob metaJob : String) (i : Nat)
  | retrieveFinishCall (job : String)
  | backendDelete (key : Option String)
  | setKeys (source : String)
  | clearKeys (source : String)
  | setJobs (source : String)
  | clearJobs (source : String)
  | unlink (path : String)
deriving DecidableEq, Repr

/-- The backend capability consumed by `Box` (`app.backend.get_backend`
result), as used by `box.py`: `store(local_path, proposed_name) -> key`,
`retrieve_init(key, options) -> job_id`,
`retrieve_status(data_job, meta_job)` (indexed here by the poll number,
so that a run of polls is a deterministic function),
`retrieve_finish(job_id) -> local_path`, `delete(key)`.  The key given
to `retrieve_init` and `delete` is an `Option` because
`_get_retrieval_keys` returns `None` for an absent record and `box.py`
passes that value straight through. -/
structure Backend where
  store : String → String → Except String String
  retrieve_init : Option String → String → Except String String
  retrieve_status : String → String → Nat → JobStatus
  retrieve_finish : String → Except String String
  delete : Option String → Except String Unit

/-- The durable and transient state a `Box` sees: one retrieval-keys
record file per source (`source ↦ (data-key, meta-key)`), one
retrieval-jobs record file per source (`source ↦ (data-job, meta-job)`),
and the set of transient local files currently present. -/
structure BoxState where
  keyRecords : List (String × String × String)
  jobRecords : List (String × String × String)
  localFiles : List String
deriving DecidableEq, Repr

/-- Look up the record file for `name` in a one-file-per-source store. -/
def lookupRec (recs : List (String × String × String)) (name : String) :
    Option (String × String) :=
  match recs with
  | [] => none
  | (n, v) :: rest => if n = name then some v else lookupRec rest name

/-- Write (create or overwrite) the record file for `name`. -/
def setRec (recs : List (String × String × String)) (name : String)
    (v : String × String) : List (String × String × String) :=
  (name, v) :: recs.filter (fun r => r.1 ≠ name)

/-- Remove the record file for `name` if present (idempotent). -/
def clearRec (recs : List (String × String × String)) (name : String) :
    List (String × String × String) :=
  recs.filter (fun r => r.1 ≠ name)

/-- A local file comes into existence. -/
def addFile (fs : List String) (p : String) : List String :=
  if p ∈ fs then fs else p :: fs

/-- Model of `Path.unlink`. -/
def removeFile (fs : List String) (p : String) : List String :=
  fs.filter (fun q => q ≠ p)

/-- The cleanup idiom `if path.exists(): path.unlink()` used by the
`finally` blocks. -/
def unlinkIfExists (s : BoxState) (p : String) : BoxState × List Event :=
  if p ∈ s.localFiles then
    ({ s with localFiles := removeFile s.localFiles p }, [Event.unlink p])
  else (s, [])

/-- Helper for `baseName`: scan the characters, `cur` holding the
current path component in reverse; a `/` starts a new component. -/
def baseNameChars : List Char → List Char → List Char
  | [], cur => cur.reverse
  | c :: rest, cur =>
      if c = '/' then baseNameChars rest [] else baseNameChars rest (c :: cur)

/-- Model of `PurePath.name`: the final component of a path. -/
def baseName (p : String) : String :=
  ⟨baseNameChars p.data []⟩

namespace Box

/-- Embeds `Box.contains`: the source name exists iff its retrieval-keys record
file exists. -/
def contains (s : BoxState) (source : String) : Bool :=
  (lookupRec s.keyRecords source).isSome

/-- Embeds `Box._get_retrieval_keys`: the stored pair when the record file
exists, `(None, None)` otherwise. -/
def get_retrieval_keys (s : BoxState) (source : String) :
    Option String × Option String :=
  match lookupRec s.keyRecords source with
  | some (dk, mk) => (some dk, some mk)
  | none => (none, none)

/-- Embeds `Box._set_retrieval_keys`. -/
def set_retrieval_keys (s : BoxState) (source dataKey metaKey : String) :
    BoxState :=
  { s with keyRecords := setRec s.keyRecords source (dataKey, metaKey) }

/-- Embeds `Box._clear_retrieval_keys` (no-op when absent). -/
def clear_retrieval_keys (s : BoxState) (source : String) : BoxState :=
  { s with keyRecords := clearRec s.keyRecords source }

/-- Embeds `Box._has_retrieval_jobs`. -/
def has_retrieval_jobs (s : BoxState) (source : String) : Bool :=
  (lookupRec s.jobRecords source).isSome

/-- Embeds `Box._get_retrieval_jobs`. -/
def get_retrieval_jobs (s : BoxState) (source : String) :
    Option String × Option String :=
  match lookupRec s.jobRecords source with
  | some (dj, mj) => (some dj, some mj)
  | none => (none, none)

/-- Embeds `Box._set_retrieval_jobs`. -/
def set_retrieval_jobs (s : BoxState) (source dataJob metaJob : String) :
    BoxState :=
  { s with jobRecords := setRec s.jobRecords source (dataJob, metaJob) }

/-- Embeds `Box._clear_retrieval_jobs` (no-op when absent). -/
def clear_retrieval_jobs (s : BoxState) (source : String) : BoxState :=
  { s with jobRecords := clearRec s.jobRecords source }

end Box

/-- The message built by the `except` clause of `Box.store`. -/
def storageFailedMsg (e : String) : String :=
  "Storage operation failed. (" ++ e ++ ")"

/-- The message built by the `except` clause of `Box.retrieve`. -/
def retrievalFailedMsg (e : String) : String :=
  "Retrieval operation failed. (" ++ e ++ ")"

/-- The message built by the `except` clause of `Box.delete`. -/
def deleteFailedMsg (e : String) : String :=
  "Delete operation failed. (" ++ e ++ ")"

/-- The result of one `Box` operation: its Python-level outcome, the
successor state, and the ordered trace of observable steps. -/
structure OpResult where
  result : Except PyErr Unit
  state : BoxState
  trace : List Event
deriving Repr

/-- The environment `Box.store` runs in: the crypto boundary
(`gpg.encrypt(src_path, key) -> (data_path, meta_path)`, which creates
the two transient artifacts), the uuid-based transient object names
produced by `_encrypted_names()`, whether the retrieval-keys record
write will succeed (a filesystem effect), and the backend. -/
structure StoreEnv where
  encrypt : String → String × String
  dataName : String
  metaName : String
  keyWriteOk : Bool
  backend : Backend

namespace Box

/-- Embeds `Box.store(src_path)` (app/box.py lines 77-96): derive the source
name, encrypt (creating the two transient artifacts), then inside
`try`: `backend.store` for the data artifact, `backend.store` for the
meta artifact, `_set_retrieval_keys`; any exception in the `try` block
is wrapped as a generic exception carrying the storage-failed message; the
`finally` block unlinks each transient artifact that exists. -/
def store (env : StoreEnv) (s : BoxState) (srcPath : String) : OpResult :=
  let source := baseName srcPath
  let dataPath := (env.encrypt srcPath).1
  let metaPath := (env.encrypt srcPath).2
  let s0 : BoxState :=
    { s with localFiles := addFile (addFile s.localFiles dataPath) metaPath }
  let tryOut : Except PyErr Unit × BoxState × List Event :=
    match env.backend.store dataPath env.dataName with
    | Except.error e =>
        (Except.error (PyErr.exc (storageFailedMsg e)), s0,
         [Event.backendStore dataPath env.dataName])
    | Except.ok dataKey =>
        match env.backend.store metaPath env.metaName with
        | Except.error e =>
            (Except.error (PyErr.exc (storageFailedMsg e)), s0,
             [Event.backendStore dataPath env.dataName,
              Event.backendStore metaPath env.metaName])
        | Except.ok metaKey =>
            if env.keyWriteOk then
              (Except.ok (), set_retrieval_keys s0 source dataKey metaKey,
               [Event.backendStore dataPath env.dataName,
                Event.backendStore metaPath env.metaName,
                Event.setKeys source])
            else
              (Except.error (PyErr.exc (storageFailedMsg "key record write failed")), s0,
               [Event.backendStore dataPath env.dataName,
                Event.backendStore metaPath env.metaName])
  let res := tryOut.1
  let s1 := tryOut.2.1
  let tr := tryOut.2.2
  let u1 := unlinkIfExists s1 dataPath
  let u2 := unlinkIfExists u1.1 metaPath
  { result := res, state := u2.1, trace := tr ++ u1.2 ++ u2.2 }

end Box

/-- The environment `Box.retrieve` runs in: the backend, and whether
`gpg.decrypt(data_path, meta_path, dst_path)` will succeed. -/
structure RetrieveEnv where
  backend : Backend
  decryptOk : Bool

/-- The result of `Box.retrieve`: `result = none` means the status poll
loop was still seeing `running` when the poll budget `fuel` ran out (the
call is still sleeping inside the loop, no exit path was taken). -/
structure RetrieveResult where
  result : Option (Except PyErr Unit)
  state : BoxState
  trace : List Event
deriving Repr

/-- The `while status == JobStatus.running` poll loop of `Box.retrieve`
(app/box.py lines 112-116): poll number `i` asks the backend for the
combined status; on `running` the loop sleeps and re-polls.  `fuel`
bounds the number of polls; the result is the first non-running status
together with the trace of polls, or `none` when all `fuel` polls
returned `running`. -/
def pollJobs (b : Backend) (dj mj : String) :
    Nat → Nat → Option JobStatus × List Event
  | 0, _ => (none, [])
  | fuel + 1, i =>
      let st := b.retrieve_status dj mj i
      if st = JobStatus.running then
        let (r, tr) := pollJobs b dj mj fuel (i + 1)
        (r, Event.statusPoll dj mj i :: tr)
      else (some st, [Event.statusPoll dj mj i])

namespace Box

/-- The `finally` block of `Box.retrieve` (app/box.py lines 132-136).
The locals `data_path` and `meta_path` are assigned only by the
`retrieve_finish` calls late in the `try` block; on an exit taken before
an assignment the corresponding local is unbound, and evaluating
`if data_path and data_path.exists()` raises `UnboundLocalError` (a
`NameError`), which replaces the pending outcome.  A bound path is
truthy, so it is unlinked when it exists. -/
def retrieveFinally (s : BoxState) (dataPath metaPath : Option String)
    (pending : Except PyErr Unit) : Except PyErr Unit × BoxState × List Event :=
  match dataPath with
  | none => (Except.error (PyErr.nameError "data_path"), s, [])
  | some dp =>
      let u1 := unlinkIfExists s dp
      match metaPath with
      | none => (Except.error (PyErr.nameError "meta_path"), u1.1, u1.2)
      | some mp =>
          let u2 := unlinkIfExists u1.1 mp
          (pending, u2.1, u1.2 ++ u2.2)

/-- The tail of `Box.retrieve` once the job pair `(dj, mj)` is in hand
(app/box.py lines 111-136): poll to a terminal status,
`_clear_retrieval_jobs`, fail on `failure`, download both artifacts with
`retrieve_finish` (each downloaded file appears locally), decrypt, with
the `except` wrap and the `finally` block on every exit path.  `tr` is
the trace accumulated by the job-acquisition phase. -/
def retrieveAfterJobs (env : RetrieveEnv) (s : BoxState) (source : String)
    (tr : List Event) (dj mj : String) (fuel : Nat) : RetrieveResult :=
  let pr := pollJobs env.backend dj mj fuel 0
  let polls := pr.2
  match pr.1 with
  | none => { result := none, state := s, trace := tr ++ polls }
  | some st =>
      let s1 := clear_retrieval_jobs s source
      let tr1 := tr ++ polls ++ [Event.clearJobs source]
      if st = JobStatus.failure then
        let f := retrieveFinally s1 none none
          (Except.error (PyErr.exc (retrievalFailedMsg "Retrieval job failed.")))
        { result := some f.1, state := f.2.1, trace := tr1 ++ f.2.2 }
      else
        match env.backend.retrieve_finish dj with
        | Except.error e =>
            let f := retrieveFinally s1 none none
              (Except.error (PyErr.exc (retrievalFailedMsg e)))
            { result := some f.1, state := f.2.1,
              trace := tr1 ++ [Event.retrieveFinishCall dj] ++ f.2.2 }
        | Except.ok dp =>
            let s2 := { s1 with localFiles := addFile s1.localFiles dp }
            match env.backend.retrieve_finish mj with
            | Except.error e =>
                let f := retrieveFinally s2 (some dp) none
                  (Except.error (PyErr.exc (retrievalFailedMsg e)))
                { result := some f.1, state := f.2.1,
                  trace := tr1 ++ [Event.retrieveFinishCall dj,
                                   Event.retrieveFinishCall mj] ++ f.2.2 }
            | Except.ok mp =>
                let s3 := { s2 with localFiles := addFile s2.localFiles mp }
                let pending : Except PyErr Unit :=
                  if env.decryptOk then Except.ok ()
                  else Except.error (PyErr.exc (retrievalFailedMsg "decrypt failed"))
                let f := retrieveFinally s3 (some dp) (some mp) pending
                { result := some f.1, state := f.2.1,
                  trace := tr1 ++ [Event.retrieveFinishCall dj,
                                   Event.retrieveFinishCall mj] ++ f.2.2 }

/-- Embeds `Box.retrieve(source, dst_path, backend_options)` (app/box.py lines
98-136).  Job acquisition first: if a retrieval-jobs record exists its
job pair is reused; otherwise the (possibly absent) retrieval keys are
read and `backend.retrieve_init` is called for each, the new pair being
persisted as the job record.  Then the poll / download / decrypt tail.
A `retrieve_init` failure is wrapped by the `except` clause and then hits
the `finally` block with both locals unbound. -/
def retrieve (env : RetrieveEnv) (s : BoxState)
    (source dstPath backendOptions : String) (fuel : Nat) : RetrieveResult :=
  match lookupRec s.jobRecords source with
  | some (dj, mj) => retrieveAfterJobs env s source [] dj mj fuel
  | none =>
      let dk := (get_retrieval_keys s source).1
      let mk := (get_retrieval_keys s source).2
      match env.backend.retrieve_init dk backendOptions with
      | Except.error e =>
          let f := retrieveFinally s none none
            (Except.error (PyErr.exc (retrievalFailedMsg e)))
          { result := some f.1, state := f.2.1,
            trace := [Event.retrieveInitCall dk backendOptions] ++ f.2.2 }
      | Except.ok dj =>
          match env.backend.retrieve_init mk backendOptions with
          | Except.error e =>
              let f := retrieveFinally s none none
                (Except.error (PyErr.exc (retrievalFailedMsg e)))
              { result := some f.1, state := f.2.1,
                trace := [Event.retrieveInitCall dk backendOptions,
                          Event.retrieveInitCall mk backendOptions] ++ f.2.2 }
          | Except.ok mj =>
              let s1 := set_retrieval_jobs s source dj mj
              retrieveAfterJobs env s1 source
                [Event.retrieveInitCall dk backendOptions,
                 Event.retrieveInitCall mk backendOptions,
                 Event.setJobs source] dj mj fuel

/-- Embeds `Box.delete(source)` (app/box.py lines 210-220): read the (possibly
absent) retrieval keys, `backend.delete` for the data key then the meta
key, then `_clear_retrieval_keys`; any exception is wrapped as
a generic exception carrying the delete-failed message. -/
def delete (b : Backend) (s : BoxState) (source : String) : OpResult :=
  let dk := (get_retrieval_keys s source).1
  let mk := (get_retrieval_keys s source).2
  match b.delete dk with
  | Except.error e =>
      { result := Except.error (PyErr.exc (deleteFailedMsg e)), state := s,
        trace := [Event.backendDelete dk] }
  | Except.ok _ =>
      match b.delete mk with
      | Except.error e =>
          { result := Except.error (PyErr.exc (deleteFailedMsg e)), state := s,
            trace := [Event.backendDelete dk, Event.backendDelete mk] }
      | Except.ok _ =>
          { result := Except.ok (), state := clear_retrieval_keys s source,
            trace := [Event.backendDelete dk, Event.backendDelete mk,
                      Event.clearKeys source] }

end Box

/-- A `sources()` entry: a record holding the source name. -/
structure SourceInfo where
  name : String
deriving DecidableEq, Repr

/-- The sort key used by `Box.sources` (the lower-cased name), as the list
of lower-cased characters; Python compares strings lexicographically by
code point, modelled by the lexicographic order on `List Char` (`lower`
is modelled on the ASCII range, which `Char.toLower` covers). -/
def lowerKey (s : String) : List Char :=
  s.data.map Char.toLower

/-- The sort relation of the `result.sort` call with the lower-cased
name as key:
compare entries by their lower-cased name. -/
def byLowerName (a b : SourceInfo) : Prop :=
  lowerKey a.name ≤ lowerKey b.name

instance : DecidableRel byLowerName :=
  fun a b => inferInstanceAs (Decidable (lowerKey a.name ≤ lowerKey b.name))

instance : IsTotal SourceInfo byLowerName :=
  ⟨fun a b => le_total (lowerKey a.name) (lowerKey b.name)⟩

instance : IsTrans SourceInfo byLowerName :=
  ⟨fun _ _ _ hab hbc => le_trans hab hbc⟩

namespace Box

/-- Embeds `Box.sources()` (app/box.py lines 222-233): when the retrieval-keys
directory exists, one `{name}` record per child of the directory
(`children` is the iteration order of `iterdir()`, which is arbitrary),
stably sorted by case-insensitive name; otherwise the empty list. -/
def sources (dirExists : Bool) (children : List String) : List SourceInfo :=
  if dirExists then
    (children.map (fun n => { name := n })).insertionSort byLowerName
  else []

end Box

/-- True for an event that performs backend store or retrieval work. -/
def isBackendCall : Event → Bool
  | Event.backendStore _ _ => true
  | Event.retrieveInitCall _ _ => true
  | Event.statusPoll _ _ _ => true
  | Event.retrieveFinishCall _ => true
  | Event.backendDelete _ => true
  | _ => false

/-- True for a `retrieve_init` backend call. -/
def isInitCall : Event → Bool
  | Event.retrieveInitCall _ _ => true
  | _ => false

/-- True for an event that reads the job pair from the backend with job
ids other than `(dj, mj)` — i.e. a status poll or a download that does
NOT reuse the pair `(dj, mj)`. -/
def usesOtherJobs (dj mj : String) : Event → Bool
  | Event.statusPoll a b _ => ¬(a = dj ∧ b = mj)
  | Event.retrieveFinishCall j => ¬(j = dj ∨ j = mj)
  | _ => false

namespace Cli

/-- The call `box.store(data_path, meta_path, src_name)` at app/cli.py
line 107, dispatched against the actual definition
`Box.store(self, src_path)` of app/box.py line 77: a Python positional
call binds only when the argument list matches the parameter list
`[src_path]`, so only a one-element argument list enters the body; any
other count raises `TypeError` with the body never run. -/
def callBoxStore (env : StoreEnv) (s : BoxState) (args : List String) :
    OpResult :=
  match args with
  | [srcPath] => Box.store env s srcPath
  | _ => { result := Except.error (PyErr.typeError "store"), state := s, trace := [] }

/-- The call `box.retrieve(source)` at app/cli.py line 142, dispatched
against the actual definition
`Box.retrieve(self, source, dst_path, backend_options)` of app/box.py
line 98: only a three-element argument list binds and enters the body;
any other count raises `TypeError` with the body never run. -/
def callBoxRetrieve (env : RetrieveEnv) (s : BoxState) (fuel : Nat)
    (args : List String) : RetrieveResult :=
  match args with
  | [source, dstPath, backendOptions] =>
      Box.retrieve env s source dstPath backendOptions fuel
  | _ => { result := some (Except.error (PyErr.typeError "retrieve")),
           state := s, trace := [] }

/-- The `put` command (app/cli.py lines 84-115): reject a missing box,
then reject an already-present source name (`box.contains`), then
encrypt at CLI level (creating the two transient artifacts) and call
`box.store(data_path, meta_path, src_name)`; any exception is echoed
and the command exits 1 with the error as outcome; the `finally` block
unlinks each transient artifact that exists (here `data_path` and
`meta_path` are initialised to `None` before the `try`, so they are
always bound; both are assigned since `gpg.encrypt` is modelled total). -/
def put (env : StoreEnv) (s : BoxState) (boxExists : Bool) (srcPath : String) :
    OpResult :=
  if boxExists = false then
    { result := Except.error (PyErr.exc "Box not found."), state := s, trace := [] }
  else
    let srcName := baseName srcPath
    if Box.contains s srcName then
      { result := Except.error (PyErr.exc "Source name already exists in box."),
        state := s, trace := [] }
    else
      let dataPath := (env.encrypt srcPath).1
      let metaPath := (env.encrypt srcPath).2
      let s0 : BoxState :=
        { s with localFiles := addFile (addFile s.localFiles dataPath) metaPath }
      let callRes := callBoxStore env s0 [dataPath, metaPath, srcName]
      let u1 := unlinkIfExists callRes.state dataPath
      let u2 := unlinkIfExists u1.1 metaPath
      { result := callRes.result, state := u2.1,
        trace := callRes.trace ++ u1.2 ++ u2.2 }

/-- The `get` command (app/cli.py lines 118-151): reject a missing box,
then reject a source name the box does not contain (`box.contains`),
then call `box.retrieve(source)` and decrypt its result; any exception
is echoed and the command exits 1 with the error as outcome; the
`finally` block is a no-op on the failure path because `data_path` and
`meta_path` are initialised to `None` and `box.retrieve(source)` raises
before they are reassigned. -/
def get (env : RetrieveEnv) (s : BoxState) (boxExists : Bool)
    (source dest : String) (fuel : Nat) : RetrieveResult :=
  if boxExists = false then
    { result := some (Except.error (PyErr.exc "Box not found.")),
      state := s, trace := [] }
  else
    if Box.contains s source = false then
      { result := some (Except.error (PyErr.exc "Source name not found in box.")),
        state := s, trace := [] }
    else
      callBoxRetrieve env s fuel [source]

end Cli

/-! ## Helper lemmas -/

theorem unlinkIfExists_keyRecords (s : BoxState) (p : String) :
    ((unlinkIfExists s p).1).keyRecords = s.keyRecords := by
  unfold unlinkIfExists
  split <;> rfl

theorem unlinkIfExists_jobRecords (s : BoxState) (p : String) :
    ((unlinkIfExists s p).1).jobRecords = s.jobRecords := by
  unfold unlinkIfExists
  split <;> rfl

theorem not_mem_unlinkIfExists_self (s : BoxState) (p : String) :
    p ∉ ((unlinkIfExists s p).1).localFiles := by
  unfold unlinkIfExists
  split
  · simp [removeFile, List.mem_filter]
  · assumption

theorem not_mem_unlinkIfExists_of_not_mem (s : BoxState) (p x : String)
    (h : x ∉ s.localFiles) : x ∉ ((unlinkIfExists s p).1).localFiles := by
  unfold unlinkIfExists
  split
  · simp only [removeFile, List.mem_filter]
    intro hc
    exact h hc.1
  · exact h

theorem unlinkIfExists_countP (s : BoxState) (p : String) (q : Event → Bool)
    (hq : ∀ r, q (Event.unlink r) = false) :
    ((unlinkIfExists s p).2).countP q = 0 := by
  unfold unlinkIfExists
  split <;> simp [hq]

theorem unlinkIfExists_countP_backend (s : BoxState) (p : String) :
    ((unlinkIfExists s p).2).countP isBackendCall = 0 :=
  unlinkIfExists_countP s p isBackendCall (fun _ => rfl)

theorem pollJobs_countP (b : Backend) (dj mj : String) (p : Event → Bool)
    (hp : ∀ i, p (Event.statusPoll dj mj i) = false) :
    ∀ fuel i, ((pollJobs b dj mj fuel i).2).countP p = 0 := by
  intro fuel
  induction fuel with
  | zero => intro i; simp [pollJobs]
  | succ n ih =>
      intro i
      rcases hr : pollJobs b dj mj n (i + 1) with ⟨r, tr⟩
      have htr : tr.countP p = 0 := by
        have h2 := ih (i + 1)
        rw [hr] at h2
        exact h2
      by_cases hst : b.retrieve_status dj mj i = JobStatus.running
      · simp [pollJobs, hst, hr, List.countP_cons, hp, htr]
      · simp [pollJobs, hst, List.countP_cons, hp]

theorem retrieveFinally_countP (s : BoxState) (dp mp : Option String)
    (pending : Except PyErr Unit) (q : Event → Bool)
    (hq : ∀ r, q (Event.unlink r) = false) :
    ((Box.retrieveFinally s dp mp pending).2.2).countP q = 0 := by
  cases dp with
  | none => simp [Box.retrieveFinally]
  | some a =>
      cases mp with
      | none => simp [Box.retrieveFinally, unlinkIfExists_countP _ _ _ hq]
      | some c =>
          simp [Box.retrieveFinally, List.countP_append,
                unlinkIfExists_countP _ _ _ hq]

/-- The trace of the poll / download / decrypt tail adds no event that
`p` counts, provided `p` ignores status polls on `(dj, mj)`, the job
record clear, the two downloads, and unlinks. -/
theorem retrieveAfterJobs_countP (env : RetrieveEnv) (s : BoxState)
    (source : String) (tr : List Event) (dj mj : String) (fuel : Nat)
    (p : Event → Bool)
    (hpoll : ∀ i, p (Event.statusPoll dj mj i) = false)
    (hclear : p (Event.clearJobs source) = false)
    (hfdj : p (Event.retrieveFinishCall dj) = false)
    (hfmj : p (Event.retrieveFinishCall mj) = false)
    (hunlink : ∀ q, p (Event.unlink q) = false) :
    (Box.retrieveAfterJobs env s source tr dj mj fuel).trace.countP p
      = tr.countP p := by
  rcases hpj : pollJobs env.backend dj mj fuel 0 with ⟨stOpt, polls⟩
  have hpolls : polls.countP p = 0 := by
    have := pollJobs_countP env.backend dj mj p hpoll fuel 0
    rw [hpj] at this
    exact this
  unfold Box.retrieveAfterJobs
  rw [hpj]
  cases stOpt with
  | none => simp [List.countP_append, hpolls]
  | some st =>
      by_cases hst : st = JobStatus.failure
      · simp [hst, Box.retrieveFinally, List.countP_append, hpolls, hclear]
      · rcases hdf : env.backend.retrieve_finish dj with e | dp
        · simp [hst, hdf, Box.retrieveFinally, List.countP_append,
                hpolls, hclear, hfdj]
        · rcases hmf : env.backend.retrieve_finish mj with e | mp
          · simp [hst, hdf, hmf, Box.retrieveFinally, List.countP_append,
                  hpolls, hclear, hfdj, hfmj,
                  unlinkIfExists_countP _ _ _ hunlink]
          · simp [hst, hdf, hmf, List.countP_append, hpolls, hclear,
                  hfdj, hfmj, retrieveFinally_countP _ _ _ _ _ hunlink]

theorem eq_unlink_of_mem_unlinkIfExists (s : BoxState) (p : String) (e : Event)
    (h : e ∈ (unlinkIfExists s p).2) : e = Event.unlink p := by
  unfold unlinkIfExists at h
  split at h
  · simpa using h
  · simp at h

theorem clearRec_of_lookup_none (name : String) :
    ∀ recs : List (String × String × String),
      lookupRec recs name = none → clearRec recs name = recs := by
  intro recs
  induction recs with
  | nil => intro _; rfl
  | cons a rest ih =>
      intro h
      rcases a with ⟨n, v⟩
      unfold lookupRec at h
      by_cases hn : n = name
      · simp [hn] at h
      · rw [if_neg hn] at h
        have hr := ih h
        unfold clearRec at hr ⊢
        rw [List.filter_cons, hr]
        simp [hn]

/-! ## Concrete fixtures used by witnesses and counterexamples -/

/-- A backend on which every call succeeds. -/
def bOk : Backend where
  store := fun _ n => Except.ok ("K-" ++ n)
  retrieve_init := fun k _ => Except.ok ("J-" ++ k.getD "none")
  retrieve_status := fun _ _ _ => JobStatus.success
  retrieve_finish := fun j => Except.ok ("/tmp/" ++ j)
  delete := fun _ => Except.ok ()

/-- A store environment over `bOk` with a total crypto boundary. -/
def envOk : StoreEnv where
  encrypt := fun p => (p ++ ".data.gpg", p ++ ".meta.gpg")
  dataName := "uuid.data"
  metaName := "uuid.meta"
  keyWriteOk := true
  backend := bOk

/-- Variant of `envOk` with a backend whose `store` always fails. -/
def envFailData : StoreEnv :=
  { envOk with backend := { bOk with store := fun _ _ => Except.error "boom" } }

/-- A box holding one source `f` with keys `(k1, k2)`. -/
def stF : BoxState :=
  { keyRecords := [("f", "k1", "k2")], jobRecords := [], localFiles := [] }

/-- A box holding source `src` with keys `(dk, mk)` and a persisted
retrieval job record `(dj, mj)`. -/
def stJob : BoxState :=
  { keyRecords := [("src", "dk", "mk")], jobRecords := [("src", "dj", "mj")],
    localFiles := [] }

/-- An empty box. -/
def stEmpty : BoxState :=
  { keyRecords := [], jobRecords := [], localFiles := [] }

/-- Variant of `bOk` where deleting the meta key `mk` fails: a backend
delete that only half succeeds. -/
def bMetaDelFails : Backend :=
  { bOk with
    delete := fun k =>
      if k = some "mk" then Except.error "late failure" else Except.ok () }

/-- A retrieval environment over `bOk`. -/
def rEnvOk : RetrieveEnv where
  backend := bOk
  decryptOk := true

/-- Variant of `rEnvOk` with a backend reporting combined status
`failure` at every poll. -/
def rEnvFailStatus : RetrieveEnv :=
  { rEnvOk with
    backend := { bOk with retrieve_status := fun _ _ _ => JobStatus.failure } }

/-! ## Claims -/

/-- C4: for every call to `Box.store`, the Retrieval Key Record is
written only after both backend store calls (data artifact then
metadata artifact) have succeeded; if either backend store call raises,
the call fails with the wrapped storage error (`StorageFailed`) and the
key records are unchanged, so no Retrieval Key Record is written. -/
theorem claim_C4_store_atomicity (env : StoreEnv) (s : BoxState) (srcPath : String) :
    (∀ e, env.backend.store (env.encrypt srcPath).1 env.dataName = Except.error e →
      (Box.store env s srcPath).result
          = Except.error (PyErr.exc (storageFailedMsg e)) ∧
      (Box.store env s srcPath).state.keyRecords = s.keyRecords) ∧
    (∀ dk e, env.backend.store (env.encrypt srcPath).1 env.dataName = Except.ok dk →
      env.backend.store (env.encrypt srcPath).2 env.metaName = Except.error e →
      (Box.store env s srcPath).result
          = Except.error (PyErr.exc (storageFailedMsg e)) ∧
      (Box.store env s srcPath).state.keyRecords = s.keyRecords) ∧
    (Event.setKeys (baseName srcPath) ∈ (Box.store env s srcPath).trace →
      (∃ dk, env.backend.store (env.encrypt srcPath).1 env.dataName = Except.ok dk) ∧
      (∃ mk2, env.backend.store (env.encrypt srcPath).2 env.metaName = Except.ok mk2) ∧
      (Box.store env s srcPath).trace.take 3
          = [Event.backendStore (env.encrypt srcPath).1 env.dataName,
             Event.backendStore (env.encrypt srcPath).2 env.metaName,
             Event.setKeys (baseName srcPath)]) := by
  refine ⟨?_, ?_, ?_⟩
  · intro e he
    refine ⟨?_, ?_⟩
    · simp [Box.store, he]
    · simp only [Box.store, he]
      rw [unlinkIfExists_keyRecords, unlinkIfExists_keyRecords]
  · intro dk e hd he
    refine ⟨?_, ?_⟩
    · simp [Box.store, hd, he]
    · simp only [Box.store, hd, he]
      rw [unlinkIfExists_keyRecords, unlinkIfExists_keyRecords]
  · intro hmem
    rcases hd : env.backend.store (env.encrypt srcPath).1 env.dataName with e | dk
    · exfalso
      simp only [Box.store, hd] at hmem
      rcases List.mem_append.mp hmem with h12 | h3
      · rcases List.mem_append.mp h12 with h1 | h2
        · simp at h1
        · exact Event.noConfusion (eq_unlink_of_mem_unlinkIfExists _ _ _ h2)
      · exact Event.noConfusion (eq_unlink_of_mem_unlinkIfExists _ _ _ h3)
    · rcases hm : env.backend.store (env.encrypt srcPath).2 env.metaName with e | mk2
      · exfalso
        simp only [Box.store, hd, hm] at hmem
        rcases List.mem_append.mp hmem with h12 | h3
        · rcases List.mem_append.mp h12 with h1 | h2
          · simp at h1
          · exact Event.noConfusion (eq_unlink_of_mem_unlinkIfExists _ _ _ h2)
        · exact Event.noConfusion (eq_unlink_of_mem_unlinkIfExists _ _ _ h3)
      · rcases hw : env.keyWriteOk with _ | _
        · exfalso
          simp only [Box.store, hd, hm, hw, Bool.false_eq_true, if_false] at hmem
          rcases List.mem_append.mp hmem with h12 | h3
          · rcases List.mem_append.mp h12 with h1 | h2
            · simp at h1
            · exact Event.noConfusion (eq_unlink_of_mem_unlinkIfExists _ _ _ h2)
          · exact Event.noConfusion (eq_unlink_of_mem_unlinkIfExists _ _ _ h3)
        · refine ⟨⟨dk, rfl⟩, ⟨mk2, rfl⟩, ?_⟩
          simp [Box.store, hd, hm, hw, List.take]

/-- C4 witness: a backend whose data-artifact store fails makes
`Box.store` fail with the wrapped storage error and leaves the key
records unchanged. -/
theorem claim_C4_witness :
    (Box.store envFailData stF "f").result
        = Except.error (PyErr.exc (storageFailedMsg "boom")) ∧
    (Box.store envFailData stF "f").state.keyRecords = stF.keyRecords :=
  (claim_C4_store_atomicity envFailData stF "f").1 "boom" rfl

/-- C7: on every exit path of `Box.store` (success, either backend store
call failing, or the key-record write failing) both transient local
encrypted artifacts produced by encryption are deleted before the call
returns. -/
theorem claim_C7_store_cleanup (env : StoreEnv) (s : BoxState) (srcPath : String) :
    (env.encrypt srcPath).1 ∉ (Box.store env s srcPath).state.localFiles ∧
    (env.encrypt srcPath).2 ∉ (Box.store env s srcPath).state.localFiles := by
  unfold Box.store
  exact ⟨not_mem_unlinkIfExists_of_not_mem _ _ _ (not_mem_unlinkIfExists_self _ _),
         not_mem_unlinkIfExists_self _ _⟩

/-- C5 counterexample: `Box.store` called for the name `f` already
present in the box (with record `(k1, k2)`) does not fail with
`AlreadyExists`: it succeeds and overwrites the stored record. -/
theorem claim_C5_counterexample :
    Box.contains stF "f" = true ∧
    lookupRec stF.keyRecords "f" = some ("k1", "k2") ∧
    (Box.store envOk stF "f").result = Except.ok () ∧
    lookupRec (Box.store envOk stF "f").state.keyRecords "f"
        = some ("K-uuid.data", "K-uuid.meta") :=
  ⟨rfl, rfl, rfl, rfl⟩

/-- C5 amended: the `AlreadyExists` rejection lives in the CLI `put`
command, not in `Box.store`: when the source name is already present,
`put` fails before calling `box.store`, performing no backend call and
leaving the box state (in particular the first stored record)
unchanged.  `Box.store` itself performs no existence check and
overwrites the record. -/
theorem claim_C5_amended (env : StoreEnv) (s : BoxState) (srcPath : String)
    (h : Box.contains s (baseName srcPath) = true) :
    (Cli.put env s true srcPath).result
        = Except.error (PyErr.exc "Source name already exists in box.") ∧
    (Cli.put env s true srcPath).state = s ∧
    (Cli.put env s true srcPath).trace = [] := by
  simp only [Cli.put, h]
  exact ⟨rfl, rfl, rfl⟩

/-- C5 amended witness at the concrete box `stF` holding `f`. -/
theorem claim_C5_witness :
    (Cli.put envOk stF true "f").result
        = Except.error (PyErr.exc "Source name already exists in box.") ∧
    (Cli.put envOk stF true "f").state = stF ∧
    (Cli.put envOk stF true "f").trace = [] :=
  claim_C5_amended envOk stF "f" rfl

/-- C2 (code bug): with a persisted job record for `src` and a backend
reporting combined status `failed`, `Box.retrieve` clears the Retrieval
Job Record and leaves the Retrieval Key Record untouched as the claim
says, but the call does not fail with the wrapped `RetrievalFailed`
error: the `finally` block references the local `data_path` before any
assignment to it, so the call raises `UnboundLocalError` instead. -/
theorem claim_C2_job_failure_unbound_local :
    (Box.retrieve rEnvFailStatus stJob "src" "/dst" "opts" 1).result
        = some (Except.error (PyErr.nameError "data_path")) ∧
    (Box.retrieve rEnvFailStatus stJob "src" "/dst" "opts" 1).state.jobRecords
        = [] ∧
    (Box.retrieve rEnvFailStatus stJob "src" "/dst" "opts" 1).state.keyRecords
        = stJob.keyRecords :=
  ⟨rfl, rfl, rfl⟩

/-- The poll / download / decrypt tail only appends to the trace it is
given. -/
theorem retrieveAfterJobs_trace (env : RetrieveEnv) (s : BoxState)
    (source : String) (tr : List Event) (dj mj : String) (fuel : Nat) :
    ∃ rest, (Box.retrieveAfterJobs env s source tr dj mj fuel).trace
        = tr ++ rest := by
  rcases hpj : pollJobs env.backend dj mj fuel 0 with ⟨stOpt, polls⟩
  unfold Box.retrieveAfterJobs
  rw [hpj]
  cases stOpt with
  | none => exact ⟨polls, rfl⟩
  | some st =>
      by_cases hst : st = JobStatus.failure
      · simp only [hst, if_pos, List.append_assoc]
        exact ⟨_, rfl⟩
      · rcases hdf : env.backend.retrieve_finish dj with e | dp
        · simp only [hst, hdf, if_neg, List.append_assoc]
          exact ⟨_, rfl⟩
        · rcases hmf : env.backend.retrieve_finish mj with e | mp
          · simp only [hst, hdf, hmf, if_neg, List.append_assoc]
            exact ⟨_, rfl⟩
          · simp only [hst, hdf, hmf, if_neg, List.append_assoc]
            exact ⟨_, rfl⟩

/-- C1: resumability of retrieval.  When a Retrieval Job Record exists
for the source, `Box.retrieve` performs no `retrieve_init` call and
every status poll and every download in its trace uses the stored job
pair (the record is reused).  When no Job Record exists and both
`retrieve_init` calls succeed, `retrieve_init` is called exactly once
per artifact — twice in total. -/
theorem claim_C1_retrieve_resumability (env : RetrieveEnv) (s : BoxState)
    (source dstPath opts : String) (fuel : Nat) :
    (∀ dj mj, lookupRec s.jobRecords source = some (dj, mj) →
      (Box.retrieve env s source dstPath opts fuel).trace.countP isInitCall
          = 0 ∧
      (Box.retrieve env s source dstPath opts fuel).trace.countP
          (usesOtherJobs dj mj) = 0) ∧
    (lookupRec s.jobRecords source = none →
      ∀ dj mj,
        env.backend.retrieve_init (Box.get_retrieval_keys s source).1 opts
            = Except.ok dj →
        env.backend.retrieve_init (Box.get_retrieval_keys s source).2 opts
            = Except.ok mj →
        (Box.retrieve env s source dstPath opts fuel).trace.countP isInitCall
            = 2) := by
  constructor
  · intro dj mj hjr
    have hret : Box.retrieve env s source dstPath opts fuel
        = Box.retrieveAfterJobs env s source [] dj mj fuel := by
      unfold Box.retrieve
      rw [hjr]
    rw [hret]
    constructor
    · rw [retrieveAfterJobs_countP env s source [] dj mj fuel isInitCall
          (fun _ => rfl) rfl rfl rfl (fun _ => rfl)]
      rfl
    · rw [retrieveAfterJobs_countP env s source [] dj mj fuel
          (usesOtherJobs dj mj) (by intro i; simp [usesOtherJobs]) rfl
          (by simp [usesOtherJobs]) (by simp [usesOtherJobs]) (fun _ => rfl)]
      rfl
  · intro hjr dj mj h1 h2
    have hret : Box.retrieve env s source dstPath opts fuel
        = Box.retrieveAfterJobs env (Box.set_retrieval_jobs s source dj mj)
            source
            [Event.retrieveInitCall (Box.get_retrieval_keys s source).1 opts,
             Event.retrieveInitCall (Box.get_retrieval_keys s source).2 opts,
             Event.setJobs source] dj mj fuel := by
      unfold Box.retrieve
      rw [hjr]
      simp only [h1, h2]
    rw [hret]
    rw [retrieveAfterJobs_countP _ _ source _ dj mj fuel isInitCall
        (fun _ => rfl) rfl rfl rfl (fun _ => rfl)]
    rfl

/-- C1 witness: the box `stJob` has a persisted job record
`("dj", "mj")` for `src`, and a resumed retrieve performs no
`retrieve_init` call and reuses exactly that pair. -/
theorem claim_C1_witness :
    lookupRec stJob.jobRecords "src" = some ("dj", "mj") ∧
    ((Box.retrieve rEnvOk stJob "src" "/dst" "opts" 1).trace.countP isInitCall
        = 0 ∧
     (Box.retrieve rEnvOk stJob "src" "/dst" "opts" 1).trace.countP
        (usesOtherJobs "dj" "mj") = 0) :=
  ⟨rfl, (claim_C1_retrieve_resumability rEnvOk stJob "src" "/dst" "opts" 1).1
      "dj" "mj" rfl⟩

/-- C3: the CLI `put` command passes three arguments
(`data_path, meta_path, src_name`) to the one-parameter `Box.store`,
and the CLI `get` command passes one argument (`source`) to the
three-parameter `Box.retrieve`; every invocation that reaches these
calls therefore fails with a `TypeError` argument-mismatch error before
any backend store or retrieval work is performed, leaving the records
unchanged. -/
theorem claim_C3_cli_arity_mismatch (envS : StoreEnv) (envR : RetrieveEnv)
    (s : BoxState) (srcPath source dest : String) (fuel : Nat) :
    (Box.contains s (baseName srcPath) = false →
      (Cli.put envS s true srcPath).result
          = Except.error (PyErr.typeError "store") ∧
      (Cli.put envS s true srcPath).trace.countP isBackendCall = 0 ∧
      (Cli.put envS s true srcPath).state.keyRecords = s.keyRecords) ∧
    (Box.contains s source = true →
      (Cli.get envR s true source dest fuel).result
          = some (Except.error (PyErr.typeError "retrieve")) ∧
      (Cli.get envR s true source dest fuel).trace = [] ∧
      (Cli.get envR s true source dest fuel).state = s) := by
  constructor
  · intro h
    refine ⟨?_, ?_, ?_⟩
    · simp [Cli.put, Cli.callBoxStore, h]
    · simp [Cli.put, Cli.callBoxStore, h, List.countP_append,
            unlinkIfExists_countP_backend]
    · simp [Cli.put, Cli.callBoxStore, h, unlinkIfExists_keyRecords]
  · intro h
    refine ⟨?_, ?_, ?_⟩ <;> simp [Cli.get, Cli.callBoxRetrieve, h]

/-- C3 witness: against the concrete box `stF` (holding only `f`), a
`put` of the new name `g` and a `get` of the present name `f` both die
on the argument mismatch with no backend work. -/
theorem claim_C3_witness :
    ((Cli.put envOk stF true "g").result
        = Except.error (PyErr.typeError "store") ∧
     (Cli.put envOk stF true "g").trace.countP isBackendCall = 0 ∧
     (Cli.put envOk stF true "g").state.keyRecords = stF.keyRecords) ∧
    ((Cli.get rEnvOk stF true "f" "/dst" 1).result
        = some (Except.error (PyErr.typeError "retrieve")) ∧
     (Cli.get rEnvOk stF true "f" "/dst" 1).trace = [] ∧
     (Cli.get rEnvOk stF true "f" "/dst" 1).state = stF) :=
  ⟨(claim_C3_cli_arity_mismatch envOk rEnvOk stF "g" "f" "/dst" 1).1 rfl,
   (claim_C3_cli_arity_mismatch envOk rEnvOk stF "g" "f" "/dst" 1).2 rfl⟩

/-- C6 counterexample: `Box.retrieve` of the absent source `ghost`
(no Retrieval Key Record, no Job Record) does not fail with `NotFound`
and does issue backend retrieval jobs: with a backend that accepts a
`None` key it calls `retrieve_init` twice and even succeeds. -/
theorem claim_C6_counterexample :
    lookupRec stEmpty.keyRecords "ghost" = none ∧
    lookupRec stEmpty.jobRecords "ghost" = none ∧
    (Box.retrieve rEnvOk stEmpty "ghost" "/dst" "opts" 1).result
        = some (Except.ok ()) ∧
    (Box.retrieve rEnvOk stEmpty "ghost" "/dst" "opts" 1).trace.countP
        isInitCall = 2 :=
  ⟨rfl, rfl, rfl, rfl⟩

/-- C6 amended: `Box.retrieve` itself performs no `NotFound` check —
with no Key Record and no Job Record its first observable step is
already `retrieve_init` with a `None` key; the not-found rejection for
missing sources is performed by the CLI `get` command, which fails with
the not-found message and no backend call before ever invoking
`box.retrieve`. -/
theorem claim_C6_amended (envR : RetrieveEnv) (s : BoxState)
    (source dest dstPath opts : String) (fuel : Nat)
    (hk : lookupRec s.keyRecords source = none)
    (hj : lookupRec s.jobRecords source = none) :
    (Box.retrieve envR s source dstPath opts fuel).trace.head?
        = some (Event.retrieveInitCall none opts) ∧
    Box.contains s source = false ∧
    (Cli.get envR s true source dest fuel).result
        = some (Except.error (PyErr.exc "Source name not found in box.")) ∧
    (Cli.get envR s true source dest fuel).trace = [] := by
  have hc : Box.contains s source = false := by
    unfold Box.contains
    rw [hk]
    rfl
  have hgk : Box.get_retrieval_keys s source = (none, none) := by
    unfold Box.get_retrieval_keys
    rw [hk]
  refine ⟨?_, hc, ?_, ?_⟩
  · unfold Box.retrieve
    rw [hj]
    simp only [hgk]
    rcases h1 : envR.backend.retrieve_init none opts with e | dj
    · simp
    · obtain ⟨rest, hr⟩ := retrieveAfterJobs_trace envR
        (Box.set_retrieval_jobs s source dj dj) source
        [Event.retrieveInitCall none opts, Event.retrieveInitCall none opts,
         Event.setJobs source] dj dj fuel
      simp [hr]
  · simp [Cli.get, hc]
  · simp [Cli.get, hc]

/-- C6 amended witness at the empty box and the permissive backend. -/
theorem claim_C6_witness :
    (Box.retrieve rEnvOk stEmpty "ghost" "/dst" "opts" 1).trace.head?
        = some (Event.retrieveInitCall none "opts") ∧
    Box.contains stEmpty "ghost" = false ∧
    (Cli.get rEnvOk stEmpty true "ghost" "/dst" 1).result
        = some (Except.error (PyErr.exc "Source name not found in box.")) ∧
    (Cli.get rEnvOk stEmpty true "ghost" "/dst" 1).trace = [] :=
  claim_C6_amended rEnvOk stEmpty "ghost" "/dst" "/dst" "opts" 1 rfl rfl

/-- C8: delete atomicity: the Retrieval Key Record is cleared only
after both backend delete calls succeed — a `clearKeys` step occurs
exactly when both deletes succeeded, and then only after them; if
either backend delete raises, the call fails with the wrapped delete
error (`DeleteFailed`) and the key records are unchanged. -/
theorem claim_C8_delete_atomicity (b : Backend) (s : BoxState) (source : String) :
    (∀ e, b.delete (Box.get_retrieval_keys s source).1 = Except.error e →
      (Box.delete b s source).result
          = Except.error (PyErr.exc (deleteFailedMsg e)) ∧
      (Box.delete b s source).state.keyRecords = s.keyRecords) ∧
    (∀ e, b.delete (Box.get_retrieval_keys s source).1 = Except.ok () →
      b.delete (Box.get_retrieval_keys s source).2 = Except.error e →
      (Box.delete b s source).result
          = Except.error (PyErr.exc (deleteFailedMsg e)) ∧
      (Box.delete b s source).state.keyRecords = s.keyRecords) ∧
    (Event.clearKeys source ∈ (Box.delete b s source).trace →
      b.delete (Box.get_retrieval_keys s source).1 = Except.ok () ∧
      b.delete (Box.get_retrieval_keys s source).2 = Except.ok () ∧
      (Box.delete b s source).trace
          = [Event.backendDelete (Box.get_retrieval_keys s source).1,
             Event.backendDelete (Box.get_retrieval_keys s source).2,
             Event.clearKeys source]) := by
  refine ⟨?_, ?_, ?_⟩
  · intro e he
    constructor <;> simp [Box.delete, he]
  · intro e hd he
    constructor <;> simp [Box.delete, hd, he]
  · intro hmem
    rcases hd : b.delete (Box.get_retrieval_keys s source).1 with e | u
    · exfalso
      simp [Box.delete, hd] at hmem
    · rcases hm : b.delete (Box.get_retrieval_keys s source).2 with e | v
      · exfalso
        simp [Box.delete, hd, hm] at hmem
      · exact ⟨rfl, rfl, by simp [Box.delete, hd, hm]⟩

/-- C8 witness: a backend deleting the data key but failing on the meta
key leaves the key record of `src` in place and fails with the wrapped
delete error. -/
theorem claim_C8_witness :
    (Box.delete bMetaDelFails stJob "src").result
        = Except.error (PyErr.exc (deleteFailedMsg "late failure")) ∧
    (Box.delete bMetaDelFails stJob "src").state.keyRecords = stJob.keyRecords :=
  (claim_C8_delete_atomicity bMetaDelFails stJob "src").2.1 "late failure" rfl rfl

/-- C9 counterexample: `Box.delete` of the absent source `ghost` does
not fail with `NotFound`: with a backend whose delete tolerates a
`None` key the call succeeds. -/
theorem claim_C9_counterexample :
    lookupRec stEmpty.keyRecords "ghost" = none ∧
    (Box.delete bOk stEmpty "ghost").result = Except.ok () :=
  ⟨rfl, rfl⟩

/-- C9 amended: `Box.delete` performs no existence check: with no
Retrieval Key Record for the source it calls `backend.delete` twice
with a `None` key, and when the backend tolerates that the call
completes without error (and without changing the key records) instead
of failing with `NotFound`. -/
theorem claim_C9_amended (b : Backend) (s : BoxState) (source : String)
    (hk : lookupRec s.keyRecords source = none)
    (hd : b.delete none = Except.ok ()) :
    (Box.delete b s source).result = Except.ok () ∧
    (Box.delete b s source).state.keyRecords = s.keyRecords ∧
    (Box.delete b s source).trace
        = [Event.backendDelete none, Event.backendDelete none,
           Event.clearKeys source] := by
  have hgk : Box.get_retrieval_keys s source = (none, none) := by
    unfold Box.get_retrieval_keys
    rw [hk]
  refine ⟨?_, ?_, ?_⟩
  · simp [Box.delete, hgk, hd]
  · simp only [Box.delete, hgk, hd]
    simp only [Box.clear_retrieval_keys]
    exact clearRec_of_lookup_none source s.keyRecords hk
  · simp [Box.delete, hgk, hd]

/-- C9 amended witness at the empty box and the permissive backend. -/
theorem claim_C9_witness :
    (Box.delete bOk stEmpty "ghost").result = Except.ok () ∧
    (Box.delete bOk stEmpty "ghost").state.keyRecords = stEmpty.keyRecords ∧
    (Box.delete bOk stEmpty "ghost").trace
        = [Event.backendDelete none, Event.backendDelete none,
           Event.clearKeys "ghost"] :=
  claim_C9_amended bOk stEmpty "ghost" rfl rfl

/-- C10: `Box.sources` lists one `{name}` record per stored source,
sorted ascending by case-insensitive name: the output is pairwise
ordered by the lower-cased-name key and is a permutation of the
children of the directory; the example order given by the spec holds;
and when the
key-store directory does not exist the result is the empty list. -/
theorem claim_C10_sources_sorted (children : List String) :
    (Box.sources true children).Pairwise byLowerName ∧
    ((Box.sources true children).map SourceInfo.name).Perm children ∧
    Box.sources false children = [] ∧
    Box.sources true ["Banana", "apple", "Cherry"]
        = [{ name := "apple" }, { name := "Banana" }, { name := "Cherry" }] := by
  refine ⟨?_, ?_, rfl, by decide⟩
  · have h := List.sorted_insertionSort byLowerName
      (children.map (fun n => ({ name := n } : SourceInfo)))
    simpa [Box.sources, List.Sorted] using h
  · have h := List.perm_insertionSort byLowerName
      (children.map (fun n => ({ name := n } : SourceInfo)))
    have h3 : ∀ cs : List String,
        (cs.map (fun n => ({ name := n } : SourceInfo))).map SourceInfo.name
          = cs := by
      intro cs
      induction cs with
      | nil => rfl
      | cons a t ih => simp [ih]
    have h2 := h.map SourceInfo.name
    rw [h3] at h2
    simpa [Box.sources] using h2

end Icebox
